import Mathlib

/-!
Shallow embedding of `file_manager/file_uploader_cli.py` (class `FileUploader`
and its helpers) and proofs about its behavior.

Modelling choices:
* Python exceptions raised by the storage SDK calls are modelled with
  `Except Error`; a `try`/`except` block becomes a `match` on that result.
* The boto3 and google-cloud-storage clients are opaque handles paired with
  the SDK entry points the code calls (`Bucket(...).upload_file`,
  `get_bucket`, `blob`, `upload_from_filename`), kept abstract as functions.
* The filesystem seen by `os.walk` is a finite tree; `os.walk` is called with
  its default `onerror=None`, so a root that cannot be scanned yields an
  empty traversal rather than raising.
* `str.lower` is modelled with `Char.toLower` (ASCII case folding), which
  agrees with Python on the ASCII extension strings this program handles.
* Observable effects (backend invocations and the two logger calls) are
  collected into an ordered event list; the method result also carries the
  `FileUploader` state because Python methods may mutate `self` (this one
  assigns no attribute, and the translation reflects that statement by
  statement).
-/

/-- A raised exception, identified by its rendered message (Python `str(e)`). -/
structure Error where
  msg : String
deriving DecidableEq, Repr

/-- Result of `self.s3.Bucket(name)`: an object offering `upload_file`. -/
structure S3Bucket where
  upload_file : String → String → Except Error Unit

/-- The boto3 S3 resource stored in `self.s3`: an opaque handle plus the
`Bucket` accessor the code calls. -/
structure S3Client where
  handle : Nat
  Bucket : String → S3Bucket

/-- Result of `bucket.blob(name)`: an object offering `upload_from_filename`. -/
structure GCSBlob where
  upload_from_filename : String → Except Error Unit

/-- Result of `self.gcs.get_bucket(name)`: an object offering `blob`. -/
structure GCSBucket where
  blob : String → GCSBlob

/-- The google-cloud-storage client stored in `self.gcs`: an opaque handle
plus the `get_bucket` accessor the code calls (which can itself raise). -/
structure GCSClient where
  handle : Nat
  get_bucket : String → Except Error GCSBucket

/-- A directory tree: the regular files directly inside it and its named
subdirectories. -/
inductive FSTree : Type where
  | node : List String → List (String × FSTree) → FSTree

/-- Index of the last occurrence of a dot in a character list, if any. -/
def lastDotIdx : List Char → Option Nat
  | [] => none
  | c :: cs =>
    match lastDotIdx cs with
    | some i => some (i + 1)
    | none => if c = '.' then some 0 else none

/-- The extension component `os.path.splitext(file)[1]` for a bare filename
(no path separator): the suffix starting at the last dot, provided some
character strictly before that dot is not itself a dot; otherwise empty
(so dotfiles such as `.bashrc` have no extension). -/
def splitext_ext (file : String) : String :=
  match lastDotIdx file.toList with
  | none => ""
  | some d =>
    if (file.toList.take d).any (fun c => c != '.') then
      String.mk (file.toList.drop d)
    else ""

/-- `os.path.splitext(file)[1][1:]`: the extension without its leading dot,
case preserved. -/
def rawExt (file : String) : String :=
  String.mk ((splitext_ext file).toList.drop 1)

/-- `os.path.splitext(file)[1][1:].lower()`, the expression computing
`file_extension` in `upload_files`. -/
def file_extension_of (file : String) : String :=
  String.mk (((splitext_ext file).toList.drop 1).map Char.toLower)

/-- Modelled from the spec: the router "extracts the extension as the
substring after the final `.`, lower-cased" (empty when the filename has no
dot). Stated for comparison with `file_extension_of`, the extraction the
code actually performs. -/
def spec_extAfterFinalDot (file : String) : String :=
  match lastDotIdx file.toList with
  | none => ""
  | some d => String.mk ((file.toList.drop (d + 1)).map Char.toLower)

/-- `os.path.join(a, b)` for POSIX paths, two arguments: an absolute `b`
replaces `a`; otherwise a separator is inserted unless `a` is empty or
already ends with one. -/
def path_join (a b : String) : String :=
  if b.toList.head? = some '/' then b
  else if a = "" ∨ a.toList.getLast? = some '/' then a ++ b
  else a ++ "/" ++ b

/-- Top-down traversal of a directory tree rooted at `path`, yielding the
`(subdir, files)` part of each `os.walk` triple in order: the directory
itself first, then its subdirectories recursively. -/
def walkTree : String → FSTree → List (String × List String)
  | path, .node files subdirs => (path, files) :: walkSubdirs path subdirs
where
  /-- Traversal of a list of named subdirectories of `path`, in order. -/
  walkSubdirs : String → List (String × FSTree) → List (String × List String)
  | _, [] => []
  | path, (name, t) :: rest =>
    walkTree (path_join path name) t ++ walkSubdirs path rest

/-- `os.walk(directory)` over a filesystem in which the root either holds
the tree `some t` or does not exist / cannot be scanned (`none`). With the
default `onerror=None`, a failing scan of the root is silently swallowed and
the walk yields nothing. -/
def os_walk (directory : String) (fs : Option FSTree) :
    List (String × List String) :=
  match fs with
  | none => []
  | some t => walkTree directory t

/-- The state of a `FileUploader` instance: exactly the attributes
`__init__` assigns to `self`. -/
structure FileUploader where
  s3_access_key : String
  s3_secret_key : String
  s3_bucket_name : String
  gcs_project_id : String
  gcs_bucket_name : String
  s3_file_extensions : List String
  gcs_file_extensions : List String
  file_extensions : List String
  s3 : S3Client
  gcs : GCSClient

/-- `FileUploader.__init__`. The two SDK constructors (`boto3.resource` and
`storage.Client.from_service_account_json`) are passed in as functions of
the credential arguments they consume; note `gcs_credentials_path` is used
to build the client but, as in the source, never stored on `self`, and
`file_extensions` is the concatenation of the two configured lists. -/
def FileUploader.init
    (boto3_resource : String → String → S3Client)
    (from_service_account_json : String → GCSClient)
    (s3_access_key s3_secret_key s3_bucket_name : String)
    (gcs_credentials_path gcs_project_id gcs_bucket_name : String)
    (s3_file_extensions gcs_file_extensions : List String) : FileUploader :=
  { s3_access_key := s3_access_key
    s3_secret_key := s3_secret_key
    s3_bucket_name := s3_bucket_name
    gcs_project_id := gcs_project_id
    gcs_bucket_name := gcs_bucket_name
    s3_file_extensions := s3_file_extensions
    gcs_file_extensions := gcs_file_extensions
    file_extensions := s3_file_extensions ++ gcs_file_extensions
    s3 := boto3_resource s3_access_key s3_secret_key
    gcs := from_service_account_json gcs_credentials_path }

/-- `FileUploader.upload_to_s3`: a single statement delegating to the SDK,
with no error handling of its own. -/
def FileUploader.upload_to_s3 (u : FileUploader)
    (file_path file_name : String) : Except Error Unit :=
  (u.s3.Bucket u.s3_bucket_name).upload_file file_path file_name

/-- `FileUploader.upload_to_gcs`: resolves the bucket handle (whose failure,
rendered as the `.error` branch of the match, propagates as in Python), then
builds the blob reference and transfers; no error handling of its own. -/
def FileUploader.upload_to_gcs (u : FileUploader)
    (file_path file_name : String) : Except Error Unit :=
  match u.gcs.get_bucket u.gcs_bucket_name with
  | .error e => .error e
  | .ok bucket => (bucket.blob file_name).upload_from_filename file_path

/-- One observable effect of `upload_files`: a backend invocation with its
two arguments, or a line handed to the logger. -/
inductive Event : Type where
  | s3_call : String → String → Event
  | gcs_call : String → String → Event
  | info : String → Event
  | error : String → Event
deriving DecidableEq, Repr

/-- The `logger.info` line after a successful S3 upload. -/
def s3_success_msg (u : FileUploader) (file : String) : String :=
  "Successfully uploaded " ++ file ++ " to AWS S3\x27s " ++ u.s3_bucket_name
    ++ " bucket."

/-- The `logger.error` line after a failed S3 upload. -/
def s3_error_msg (u : FileUploader) (file : String) (e : Error) : String :=
  "Error uploading " ++ file ++ " to AWS S3\x27s " ++ u.s3_bucket_name
    ++ " bucket: " ++ e.msg

/-- The `logger.info` line after a successful GCS upload. -/
def gcs_success_msg (u : FileUploader) (file : String) : String :=
  "Successfully uploaded " ++ file ++ " to Google Cloud Storage\x27s "
    ++ u.gcs_bucket_name ++ " bucket."

/-- The `logger.error` line after a failed GCS upload. As in the source,
this f-string interpolates `self.s3_bucket_name`, not `self.gcs_bucket_name`. -/
def gcs_error_msg (u : FileUploader) (file : String) (e : Error) : String :=
  "Error uploading " ++ file ++ " to Google Cloud Storage\x27s "
    ++ u.s3_bucket_name ++ " bucket: " ++ e.msg

/-- The body of the inner loop of `upload_files` for one `file` found in
`subdir`: extension test against the combined list, then the S3 branch,
then the GCS branch, each upload wrapped in `try`/`except` that logs and
continues. Returns the (unchanged: the body assigns no attribute) state and
the events emitted for this file. -/
def FileUploader.processFile (u : FileUploader) (subdir file : String) :
    FileUploader × List Event :=
  let file_extension := file_extension_of file
  if file_extension ∈ u.file_extensions then
    let file_path := path_join subdir file
    if file_extension ∈ u.s3_file_extensions then
      match u.upload_to_s3 file_path file with
      | .ok _ =>
        (u, [Event.s3_call file_path file, Event.info (s3_success_msg u file)])
      | .error e =>
        (u, [Event.s3_call file_path file, Event.error (s3_error_msg u file e)])
    else if file_extension ∈ u.gcs_file_extensions then
      match u.upload_to_gcs file_path file with
      | .ok _ =>
        (u, [Event.gcs_call file_path file,
             Event.info (gcs_success_msg u file)])
      | .error e =>
        (u, [Event.gcs_call file_path file,
             Event.error (gcs_error_msg u file e)])
    else (u, [])
  else (u, [])

/-- The inner `for file in files` loop: process each file in order,
threading the instance state and accumulating events. -/
def uploadLoopFiles : FileUploader → String → List String →
    FileUploader × List Event
  | u, _, [] => (u, [])
  | u, subdir, f :: rest =>
    let r := u.processFile subdir f
    let r2 := uploadLoopFiles r.1 subdir rest
    (r2.1, r.2 ++ r2.2)

/-- The outer `for subdir, dirs, files in os.walk(...)` loop. -/
def uploadLoopWalk : FileUploader → List (String × List String) →
    FileUploader × List Event
  | u, [] => (u, [])
  | u, (subdir, files) :: rest =>
    let r := uploadLoopFiles u subdir files
    let r2 := uploadLoopWalk r.1 rest
    (r2.1, r.2 ++ r2.2)

/-- `FileUploader.upload_files(directory)` against the filesystem `fs`:
walk the tree and run the two nested loops. Total: the per-file
`try`/`except` blocks mean no exception escapes the loop body, and the
walk itself raises nothing. -/
def FileUploader.upload_files (u : FileUploader) (fs : Option FSTree)
    (directory : String) : FileUploader × List Event :=
  uploadLoopWalk u (os_walk directory fs)

/-- Upload status of one processed file. -/
inductive Status : Type where
  | success
  | failed
deriving DecidableEq, Repr

/-- The UploadOutcomes of a run, read off the event stream: each logger
line is the outcome record for one processed file (`info` reports Success,
`error` reports Failed), carrying the reported message. -/
def outcomesOf : List Event → List (Status × String)
  | [] => []
  | Event.info m :: r => (Status.success, m) :: outcomesOf r
  | Event.error m :: r => (Status.failed, m) :: outcomesOf r
  | _ :: r => outcomesOf r

/-- An outcome reported through the S3 branch for `file`: the success line,
or the failure line for some raised error. -/
def isS3OutcomeFor (u : FileUploader) (file : String)
    (o : Status × String) : Prop :=
  o = (Status.success, s3_success_msg u file) ∨
    ∃ e, o = (Status.failed, s3_error_msg u file e)

/-- An outcome reported through the GCS branch for `file`: the success line,
or the failure line for some raised error. -/
def isGCSOutcomeFor (u : FileUploader) (file : String)
    (o : Status × String) : Prop :=
  o = (Status.success, gcs_success_msg u file) ∨
    ∃ e, o = (Status.failed, gcs_error_msg u file e)

/-- An S3 client whose uploads all succeed. -/
def okS3 : S3Client :=
  { handle := 0, Bucket := fun _ => { upload_file := fun _ _ => .ok () } }

/-- A GCS client whose uploads all succeed. -/
def okGCS : GCSClient :=
  { handle := 1
    get_bucket := fun _ =>
      .ok { blob := fun _ => { upload_from_filename := fun _ => .ok () } } }

/-- An S3 client that raises `e` when asked to upload under the remote name
`bad` and succeeds otherwise. -/
def failS3on (bad : String) (e : Error) : S3Client :=
  { handle := 0
    Bucket := fun _ =>
      { upload_file := fun _ name =>
          if name = bad then .error e else .ok () } }

/-- A GCS client whose blob transfer raises `e` for the blob named `bad`
and succeeds otherwise. -/
def failGCSon (bad : String) (e : Error) : GCSClient :=
  { handle := 1
    get_bucket := fun _ =>
      .ok { blob := fun name =>
        { upload_from_filename := fun _ =>
            if name = bad then .error e else .ok () } } }

/-- A concrete uploader used in closed evaluations: both clients succeed. -/
def sampleU : FileUploader :=
  FileUploader.init (fun _ _ => okS3) (fun _ => okGCS)
    "AK" "SK" "s3-bucket" "creds.json" "proj" "gcs-bucket"
    ["txt"] ["jpg"]

/-! ### Structural lemmas about the loops -/

/-- The loop body assigns no attribute of `self`: processing one file leaves
the instance state unchanged. -/
theorem processFile_fst (u : FileUploader) (subdir file : String) :
    (u.processFile subdir file).1 = u := by
  unfold FileUploader.processFile
  dsimp only
  repeat' split
  all_goals rfl

/-- The inner loop leaves the instance state unchanged. -/
theorem uploadLoopFiles_fst (u : FileUploader) (subdir : String)
    (files : List String) : (uploadLoopFiles u subdir files).1 = u := by
  induction files with
  | nil => rfl
  | cons f rest ih =>
    simp only [uploadLoopFiles, processFile_fst]
    exact ih

/-- The outer loop leaves the instance state unchanged. -/
theorem uploadLoopWalk_fst (u : FileUploader)
    (ws : List (String × List String)) : (uploadLoopWalk u ws).1 = u := by
  induction ws with
  | nil => rfl
  | cons sd rest ih =>
    simp only [uploadLoopWalk, uploadLoopFiles_fst]
    exact ih

/-- Events of the inner loop on a cons. -/
theorem uploadLoopFiles_cons (u : FileUploader) (subdir f : String)
    (rest : List String) :
    (uploadLoopFiles u subdir (f :: rest)).2
      = (u.processFile subdir f).2 ++ (uploadLoopFiles u subdir rest).2 := by
  simp only [uploadLoopFiles, processFile_fst]

/-- Events of the inner loop distribute over list append. -/
theorem uploadLoopFiles_append (u : FileUploader) (subdir : String)
    (xs ys : List String) :
    (uploadLoopFiles u subdir (xs ++ ys)).2
      = (uploadLoopFiles u subdir xs).2 ++ (uploadLoopFiles u subdir ys).2 := by
  induction xs with
  | nil => simp [uploadLoopFiles]
  | cons f rest ih =>
    simp only [List.cons_append, uploadLoopFiles, processFile_fst,
      List.append_eq]
    rw [ih, List.append_assoc]

/-- A run over a flat directory (no subdirectories) is the inner loop over
its file list. -/
theorem upload_files_flat (u : FileUploader) (files : List String)
    (d : String) :
    (u.upload_files (some (FSTree.node files [])) d).2
      = (uploadLoopFiles u d files).2 := by
  simp [FileUploader.upload_files, os_walk, walkTree, walkTree.walkSubdirs,
    uploadLoopWalk, uploadLoopFiles_fst]

/-! ### Branch reductions of the loop body -/

/-- A file whose computed extension is not in the combined list produces no
backend call and no log line. -/
theorem processFile_skip (u : FileUploader) (subdir f : String)
    (h : file_extension_of f ∉ u.file_extensions) :
    u.processFile subdir f = (u, []) := by
  unfold FileUploader.processFile
  simp [h]

/-- Loop-body reduction when the extension is S3-eligible and the S3 SDK
call succeeds. -/
theorem processFile_s3_ok (u : FileUploader) (subdir f : String)
    (hcomb : u.file_extensions = u.s3_file_extensions ++ u.gcs_file_extensions)
    (hroute : file_extension_of f ∈ u.s3_file_extensions)
    (hok : u.upload_to_s3 (path_join subdir f) f = .ok ()) :
    u.processFile subdir f
      = (u, [Event.s3_call (path_join subdir f) f,
             Event.info (s3_success_msg u f)]) := by
  have hmem : file_extension_of f ∈ u.file_extensions := by
    rw [hcomb]; exact List.mem_append_left _ hroute
  unfold FileUploader.processFile
  simp [hmem, hroute, hok]

/-- Loop-body reduction when the extension is S3-eligible and the S3 SDK
call raises `e`: the exception is caught and turned into the error line. -/
theorem processFile_s3_fail (u : FileUploader) (subdir f : String) (e : Error)
    (hcomb : u.file_extensions = u.s3_file_extensions ++ u.gcs_file_extensions)
    (hroute : file_extension_of f ∈ u.s3_file_extensions)
    (hfail : u.upload_to_s3 (path_join subdir f) f = .error e) :
    u.processFile subdir f
      = (u, [Event.s3_call (path_join subdir f) f,
             Event.error (s3_error_msg u f e)]) := by
  have hmem : file_extension_of f ∈ u.file_extensions := by
    rw [hcomb]; exact List.mem_append_left _ hroute
  unfold FileUploader.processFile
  simp [hmem, hroute, hfail]

/-- Loop-body reduction when the extension is only GCS-eligible and the GCS
transfer succeeds. -/
theorem processFile_gcs_ok (u : FileUploader) (subdir f : String)
    (hcomb : u.file_extensions = u.s3_file_extensions ++ u.gcs_file_extensions)
    (hnot : file_extension_of f ∉ u.s3_file_extensions)
    (hroute : file_extension_of f ∈ u.gcs_file_extensions)
    (hok : u.upload_to_gcs (path_join subdir f) f = .ok ()) :
    u.processFile subdir f
      = (u, [Event.gcs_call (path_join subdir f) f,
             Event.info (gcs_success_msg u f)]) := by
  have hmem : file_extension_of f ∈ u.file_extensions := by
    rw [hcomb]; exact List.mem_append_right _ hroute
  unfold FileUploader.processFile
  simp [hmem, hnot, hroute, hok]

/-- Loop-body reduction when the extension is only GCS-eligible and the GCS
transfer raises `e`: the exception is caught and turned into the error line. -/
theorem processFile_gcs_fail (u : FileUploader) (subdir f : String) (e : Error)
    (hcomb : u.file_extensions = u.s3_file_extensions ++ u.gcs_file_extensions)
    (hnot : file_extension_of f ∉ u.s3_file_extensions)
    (hroute : file_extension_of f ∈ u.gcs_file_extensions)
    (hfail : u.upload_to_gcs (path_join subdir f) f = .error e) :
    u.processFile subdir f
      = (u, [Event.gcs_call (path_join subdir f) f,
             Event.error (gcs_error_msg u f e)]) := by
  have hmem : file_extension_of f ∈ u.file_extensions := by
    rw [hcomb]; exact List.mem_append_right _ hroute
  unfold FileUploader.processFile
  simp [hmem, hnot, hroute, hfail]

/-! ### Further concrete uploaders used in closed statements -/

/-- An uploader whose S3 client raises for the remote name `a.txt` and whose
GCS client raises for the blob `b.jpg`. -/
def failU : FileUploader :=
  FileUploader.init (fun _ _ => failS3on "a.txt" ⟨"boom"⟩)
    (fun _ => failGCSon "b.jpg" ⟨"gboom"⟩)
    "AK" "SK" "s3-bucket" "creds.json" "proj" "gcs-bucket" ["txt"] ["jpg"]

/-- An uploader whose GCS client fails already at bucket resolution. -/
def gcsDownU : FileUploader :=
  FileUploader.init (fun _ _ => okS3)
    (fun _ => { handle := 1, get_bucket := fun _ => .error ⟨"nobucket"⟩ })
    "AK" "SK" "s3-bucket" "creds.json" "proj" "gcs-bucket" ["txt"] ["jpg"]

/-- An uploader with distinct bucket names whose GCS blob transfer for
`b.jpg` raises. -/
def bugU : FileUploader :=
  FileUploader.init (fun _ _ => okS3) (fun _ => failGCSon "b.jpg" ⟨"boom"⟩)
    "AK" "SK" "s3-bucket" "creds.json" "proj" "gcs-bucket" ["txt"] ["jpg"]

/-! ### Claim theorems -/

/-- C10: `upload_files` leaves every configuration attribute of the
instance unchanged — the S3 access key, secret key and bucket name, the GCS
project id and bucket name, the two extension lists, the combined
`file_extensions` list, and the two client handles — for every directory,
filesystem, and client behavior. -/
theorem upload_files_preserves_config (u : FileUploader) (fs : Option FSTree)
    (d : String) :
    (u.upload_files fs d).1.s3_access_key = u.s3_access_key
      ∧ (u.upload_files fs d).1.s3_secret_key = u.s3_secret_key
      ∧ (u.upload_files fs d).1.s3_bucket_name = u.s3_bucket_name
      ∧ (u.upload_files fs d).1.gcs_project_id = u.gcs_project_id
      ∧ (u.upload_files fs d).1.gcs_bucket_name = u.gcs_bucket_name
      ∧ (u.upload_files fs d).1.s3_file_extensions = u.s3_file_extensions
      ∧ (u.upload_files fs d).1.gcs_file_extensions = u.gcs_file_extensions
      ∧ (u.upload_files fs d).1.file_extensions = u.file_extensions
      ∧ (u.upload_files fs d).1.s3 = u.s3
      ∧ (u.upload_files fs d).1.gcs = u.gcs := by
  have h : (u.upload_files fs d).1 = u := uploadLoopWalk_fst u (os_walk d fs)
  rw [h]
  exact ⟨rfl, rfl, rfl, rfl, rfl, rfl, rfl, rfl, rfl, rfl⟩

/-- C2 counterexample: with the root directory missing (filesystem `none`),
the concrete run returns normally — it is indistinguishable from a run over
an existing empty directory and produces zero outcomes — rather than
failing with any error before the uploads. -/
theorem missing_root_completes_normally_cex :
    sampleU.upload_files none "/no/such/dir"
        = sampleU.upload_files (some (FSTree.node [] [])) "/no/such/dir"
      ∧ outcomesOf (sampleU.upload_files none "/no/such/dir").2 = [] :=
  ⟨rfl, rfl⟩

/-- C2 amended: on a root directory that does not exist or cannot be
scanned, `upload_files` completes normally with zero UploadOutcomes — the
instance is returned unchanged, the event stream is empty, and no error is
raised (`os.walk` with its default `onerror=None` swallows the failure). -/
theorem upload_files_missing_root_no_error (u : FileUploader) (d : String) :
    u.upload_files none d = (u, []) := rfl

/-- C7: the backend upload operations catch and suppress nothing — an error
raised by the S3 SDK transfer, by GCS bucket resolution, or by the GCS blob
transfer is returned unchanged to the caller. -/
theorem backend_uploads_propagate_errors (u : FileUploader)
    (fp fn : String) (e : Error) :
    ((u.s3.Bucket u.s3_bucket_name).upload_file fp fn = .error e →
        u.upload_to_s3 fp fn = .error e)
      ∧ (u.gcs.get_bucket u.gcs_bucket_name = .error e →
          u.upload_to_gcs fp fn = .error e)
      ∧ (∀ b, u.gcs.get_bucket u.gcs_bucket_name = .ok b →
          (b.blob fn).upload_from_filename fp = .error e →
            u.upload_to_gcs fp fn = .error e) := by
  refine ⟨fun h => h, fun h => ?_, fun b hb h => ?_⟩
  · unfold FileUploader.upload_to_gcs
    rw [h]
  · unfold FileUploader.upload_to_gcs
    rw [hb]
    exact h

/-- C7 witness: concrete failing clients, each error surfacing unchanged. -/
theorem backend_uploads_propagate_errors_witness :
    failU.upload_to_s3 "/d/a.txt" "a.txt" = .error ⟨"boom"⟩
      ∧ failU.upload_to_gcs "/d/b.jpg" "b.jpg" = .error ⟨"gboom"⟩
      ∧ gcsDownU.upload_to_gcs "/d/b.jpg" "b.jpg" = .error ⟨"nobucket"⟩ :=
  ⟨(backend_uploads_propagate_errors failU "/d/a.txt" "a.txt" ⟨"boom"⟩).1 rfl,
   (backend_uploads_propagate_errors failU "/d/b.jpg" "b.jpg" ⟨"gboom"⟩).2.2
     _ rfl rfl,
   (backend_uploads_propagate_errors gcsDownU "/d/b.jpg" "b.jpg"
     ⟨"nobucket"⟩).2.1 rfl⟩

/-- C8, evaluated at the failing input: for a GCS-routed file whose
transfer raises, the emitted failure line interpolates the S3 bucket name
(`s3-bucket`) although the file went to the GCS backend whose bucket is
`gcs-bucket` — the f-string in the GCS `except` branch reads
`self.s3_bucket_name`. -/
theorem gcs_failure_line_names_s3_bucket :
    (bugU.upload_files (some (FSTree.node ["b.jpg"] [])) "/d").2
        = [Event.gcs_call "/d/b.jpg" "b.jpg",
           Event.error
             "Error uploading b.jpg to Google Cloud Storage\x27s s3-bucket bucket: boom"]
      ∧ bugU.gcs_bucket_name = "gcs-bucket"
      ∧ bugU.s3_bucket_name = "s3-bucket" :=
  ⟨by decide, rfl, rfl⟩

/-- C4 counterexample: for the dotfile `.txt` the code computes an empty
extension (`os.path.splitext` treats a name whose only dot is leading as
having no extension), while the lower-cased substring after the final dot
is `txt`; with `txt` configured for S3, the file is nevertheless skipped —
no backend call and no outcome. -/
theorem splitext_dotfile_cex :
    file_extension_of ".txt" = ""
      ∧ spec_extAfterFinalDot ".txt" = "txt"
      ∧ (sampleU.processFile "/d" ".txt").2 = [] :=
  ⟨by decide, by decide, by decide⟩

/-- C4 amended: the extension is the lower-cased substring after the final
dot only when some non-dot character precedes that dot (dotfiles and
all-dots names yield the empty extension, as do names with no dot or an
empty suffix); and provided the empty string is not among the configured
extensions, every file whose computed extension is empty is silently
skipped: no backend is invoked and no outcome is produced. -/
theorem extension_extraction_amended (u : FileUploader) (subdir file : String)
    (hcomb : u.file_extensions = u.s3_file_extensions ++ u.gcs_file_extensions)
    (hs3 : "" ∉ u.s3_file_extensions) (hgcs : "" ∉ u.gcs_file_extensions) :
    (∀ d, lastDotIdx file.toList = some d →
        (file.toList.take d).any (fun c => c != '.') = true →
        file_extension_of file = spec_extAfterFinalDot file)
      ∧ (file_extension_of file = "" → u.processFile subdir file = (u, [])) := by
  constructor
  · intro d hd hany
    unfold file_extension_of spec_extAfterFinalDot splitext_ext
    simp only [hd, hany, if_true]
    show String.mk ((List.drop 1 (List.drop d file.toList)).map Char.toLower)
      = String.mk ((file.toList.drop (d + 1)).map Char.toLower)
    rw [List.drop_drop, Nat.add_comm]
  · intro h0
    have hnot : file_extension_of file ∉ u.file_extensions := by
      rw [h0, hcomb]
      intro hmem
      rcases List.mem_append.mp hmem with h | h
      · exact hs3 h
      · exact hgcs h
    exact processFile_skip u subdir file hnot

/-- C4 amended, witness: for `a.txt` the two extraction rules agree, and
the dotfile `.bashrc` (empty computed extension) is skipped by a concrete
uploader configured with nonempty extensions. -/
theorem extension_extraction_amended_witness :
    file_extension_of "a.txt" = spec_extAfterFinalDot "a.txt"
      ∧ sampleU.processFile "/d" ".bashrc" = (sampleU, []) :=
  ⟨(extension_extraction_amended sampleU "/d" "a.txt" rfl (by decide)
      (by decide)).1 1 (by decide) (by decide),
   (extension_extraction_amended sampleU "/d" ".bashrc" rfl (by decide)
      (by decide)).2 (by decide)⟩

/-- C6 counterexample: `__init__` stores the configured extension lists
verbatim — no lower-casing, no dot-stripping — so with `TXT` configured for
S3 the file `a.txt`, whose extension equals `TXT` up to letter case, does
not match: no backend call and no outcome. -/
theorem uppercase_config_not_matched_cex :
    (FileUploader.init (fun _ _ => okS3) (fun _ => okGCS)
        "AK" "SK" "s3-bucket" "creds.json" "proj" "gcs-bucket"
        ["TXT"] []).s3_file_extensions = ["TXT"]
      ∧ ((FileUploader.init (fun _ _ => okS3) (fun _ => okGCS)
          "AK" "SK" "s3-bucket" "creds.json" "proj" "gcs-bucket"
          ["TXT"] []).processFile "/d" "a.txt").2 = [] :=
  ⟨rfl, by decide⟩

/-- C6 amended: the extension lists are stored as configured; matching
lower-cases only the extension extracted from the filename. Hence matching
is case-insensitive on the filename side alone: if a configured extension
`s` is already lowercase, every filename whose extracted extension equals
`s` up to letter case matches that backend's list. -/
theorem extension_matching_amended (u : FileUploader) (s file : String)
    (hlow : String.mk (s.toList.map Char.toLower) = s)
    (hcase : String.mk ((rawExt file).toList.map Char.toLower)
        = String.mk (s.toList.map Char.toLower)) :
    (s ∈ u.s3_file_extensions →
        file_extension_of file ∈ u.s3_file_extensions)
      ∧ (s ∈ u.gcs_file_extensions →
          file_extension_of file ∈ u.gcs_file_extensions) := by
  have hfe : file_extension_of file = s := by
    have h1 : file_extension_of file
        = String.mk ((rawExt file).toList.map Char.toLower) := rfl
    rw [h1, hcase, hlow]
  constructor <;> intro hs <;> rw [hfe] <;> exact hs

/-- C6 amended, witness: `txt` is configured (lowercase) for S3 in
`sampleU`, and the differently-cased filename `A.TXT` matches the S3 list. -/
theorem extension_matching_amended_witness :
    file_extension_of "A.TXT" ∈ sampleU.s3_file_extensions :=
  (extension_matching_amended sampleU "txt" "A.TXT" (by decide)
    (by decide)).1 (by decide)

/-- C3: when a filename's extension lies in both configured sets, the S3
membership test is evaluated first and wins: the loop body invokes the S3
upload for that file and never the GCS upload. -/
theorem overlap_routes_to_s3_first (u : FileUploader) (subdir file : String)
    (hcomb : u.file_extensions = u.s3_file_extensions ++ u.gcs_file_extensions)
    (hs3 : file_extension_of file ∈ u.s3_file_extensions)
    (hgcs : file_extension_of file ∈ u.gcs_file_extensions) :
    Event.s3_call (path_join subdir file) file ∈ (u.processFile subdir file).2
      ∧ ∀ fp fn, Event.gcs_call fp fn ∉ (u.processFile subdir file).2 := by
  rcases h : u.upload_to_s3 (path_join subdir file) file with e | ⟨⟩
  · rw [processFile_s3_fail u subdir file e hcomb hs3 h]
    exact ⟨by simp, by intro fp fn; simp⟩
  · rw [processFile_s3_ok u subdir file hcomb hs3 h]
    exact ⟨by simp, by intro fp fn; simp⟩

/-- C3 witness: an uploader configured with `txt` in both sets routes
`a.txt` to S3 and never calls GCS. -/
theorem overlap_routes_to_s3_first_witness :
    Event.s3_call (path_join "/d" "a.txt") "a.txt"
        ∈ ((FileUploader.init (fun _ _ => okS3) (fun _ => okGCS)
            "AK" "SK" "s3-bucket" "creds.json" "proj" "gcs-bucket"
            ["txt"] ["txt"]).processFile "/d" "a.txt").2
      ∧ ∀ fp fn, Event.gcs_call fp fn
          ∉ ((FileUploader.init (fun _ _ => okS3) (fun _ => okGCS)
              "AK" "SK" "s3-bucket" "creds.json" "proj" "gcs-bucket"
              ["txt"] ["txt"]).processFile "/d" "a.txt").2 :=
  overlap_routes_to_s3_first
    (FileUploader.init (fun _ _ => okS3) (fun _ => okGCS)
      "AK" "SK" "s3-bucket" "creds.json" "proj" "gcs-bucket" ["txt"] ["txt"])
    "/d" "a.txt" rfl (by decide) (by decide)

/-- C1: failure isolation. If a routed file `f` sitting between `pre` and
`post` in the walked directory has its backend upload raise `e` (either the
S3 branch, or the GCS branch when S3 does not match), the whole run still
completes and its event stream is exactly: the events of the preceding
files, then the backend call for `f` followed by a Failed log line whose
message carries the error detail, then — unchanged — the events of every
subsequent file. -/
theorem upload_files_isolates_upload_failures
    (u : FileUploader) (d : String) (pre post : List String)
    (f : String) (e : Error)
    (hcomb : u.file_extensions = u.s3_file_extensions ++ u.gcs_file_extensions)
    (hfailcase :
      (file_extension_of f ∈ u.s3_file_extensions ∧
        u.upload_to_s3 (path_join d f) f = .error e) ∨
      (file_extension_of f ∉ u.s3_file_extensions ∧
        file_extension_of f ∈ u.gcs_file_extensions ∧
        u.upload_to_gcs (path_join d f) f = .error e)) :
    ∃ call msg,
      (u.upload_files (some (FSTree.node (pre ++ f :: post) [])) d).2
        = (uploadLoopFiles u d pre).2
          ++ call :: Event.error msg :: (uploadLoopFiles u d post).2
      ∧ ∃ p, msg = p ++ e.msg := by
  rw [upload_files_flat, uploadLoopFiles_append]
  rcases hfailcase with ⟨hroute, hfail⟩ | ⟨hnot, hroute, hfail⟩
  · refine ⟨Event.s3_call (path_join d f) f, s3_error_msg u f e, ?_, ⟨_, rfl⟩⟩
    rw [uploadLoopFiles_cons, processFile_s3_fail u d f e hcomb hroute hfail]
    simp
  · refine ⟨Event.gcs_call (path_join d f) f, gcs_error_msg u f e, ?_,
      ⟨_, rfl⟩⟩
    rw [uploadLoopFiles_cons,
      processFile_gcs_fail u d f e hcomb hnot hroute hfail]
    simp

/-- C1 witness: with the S3 client made to fail on `a.txt`, a run over a
directory holding `a.txt` then `b.jpg` records the Failed event for `a.txt`
(message carrying the cause `boom`) and still produces the events of
`b.jpg`. -/
theorem upload_files_isolates_upload_failures_witness :
    ∃ call msg,
      (failU.upload_files (some (FSTree.node ["a.txt", "b.jpg"] []))
          "/data").2
        = (uploadLoopFiles failU "/data" []).2
          ++ call :: Event.error msg
            :: (uploadLoopFiles failU "/data" ["b.jpg"]).2
      ∧ ∃ p, msg = p ++ (⟨"boom"⟩ : Error).msg :=
  upload_files_isolates_upload_failures failU "/data" [] ["b.jpg"] "a.txt"
    ⟨"boom"⟩ rfl (Or.inl ⟨by decide, rfl⟩)

/-- C9: for every file that routes to a backend, the loop body's first
event is that backend's call with arguments (containing directory joined
with the file name, bare file name): the S3 call when the extension is in
the S3 list, the GCS call when it is only in the GCS list. Moreover every
backend invocation the loop body ever emits — S3 or GCS, routed or not —
uses exactly those two arguments, and `upload_to_s3` hands the bare name
straight to the SDK as the object key within the configured bucket. -/
theorem routed_call_arguments (u : FileUploader) (subdir file : String)
    (hcomb : u.file_extensions = u.s3_file_extensions ++ u.gcs_file_extensions) :
    (file_extension_of file ∈ u.s3_file_extensions →
        (u.processFile subdir file).2.head?
          = some (Event.s3_call (path_join subdir file) file))
      ∧ (file_extension_of file ∉ u.s3_file_extensions →
          file_extension_of file ∈ u.gcs_file_extensions →
          (u.processFile subdir file).2.head?
            = some (Event.gcs_call (path_join subdir file) file))
      ∧ (∀ fp fn,
          Event.s3_call fp fn ∈ (u.processFile subdir file).2
              ∨ Event.gcs_call fp fn ∈ (u.processFile subdir file).2 →
            fp = path_join subdir file ∧ fn = file)
      ∧ ∀ fp fn, u.upload_to_s3 fp fn
          = (u.s3.Bucket u.s3_bucket_name).upload_file fp fn := by
  refine ⟨?_, ?_, ?_, fun fp fn => rfl⟩
  · intro hs3
    rcases h : u.upload_to_s3 (path_join subdir file) file with e | ⟨⟩
    · rw [processFile_s3_fail u subdir file e hcomb hs3 h]
      rfl
    · rw [processFile_s3_ok u subdir file hcomb hs3 h]
      rfl
  · intro hnot hgcs
    rcases h : u.upload_to_gcs (path_join subdir file) file with e | ⟨⟩
    · rw [processFile_gcs_fail u subdir file e hcomb hnot hgcs h]
      rfl
    · rw [processFile_gcs_ok u subdir file hcomb hnot hgcs h]
      rfl
  · intro fp fn hmem
    by_cases hs3 : file_extension_of file ∈ u.s3_file_extensions
    · rcases h : u.upload_to_s3 (path_join subdir file) file with e | ⟨⟩
      · rw [processFile_s3_fail u subdir file e hcomb hs3 h] at hmem
        rcases hmem with hmem | hmem
        · simp at hmem
          exact hmem
        · simp at hmem
      · rw [processFile_s3_ok u subdir file hcomb hs3 h] at hmem
        rcases hmem with hmem | hmem
        · simp at hmem
          exact hmem
        · simp at hmem
    · by_cases hgcs : file_extension_of file ∈ u.gcs_file_extensions
      · rcases h : u.upload_to_gcs (path_join subdir file) file with e | ⟨⟩
        · rw [processFile_gcs_fail u subdir file e hcomb hs3 hgcs h] at hmem
          rcases hmem with hmem | hmem
          · simp at hmem
          · simp at hmem
            exact hmem
        · rw [processFile_gcs_ok u subdir file hcomb hs3 hgcs h] at hmem
          rcases hmem with hmem | hmem
          · simp at hmem
          · simp at hmem
            exact hmem
      · have hskip : file_extension_of file ∉ u.file_extensions := by
          rw [hcomb]
          intro hm
          rcases List.mem_append.mp hm with hm | hm
          · exact hs3 hm
          · exact hgcs hm
        rw [processFile_skip u subdir file hskip] at hmem
        rcases hmem with hmem | hmem <;> simp at hmem

/-- C9 witness: under `/data`, the S3-routed `a.txt` and the GCS-routed
`b.jpg` each lead with their backend's call carrying the joined path and
the bare name. -/
theorem routed_call_arguments_witness :
    (sampleU.processFile "/data" "a.txt").2.head?
        = some (Event.s3_call (path_join "/data" "a.txt") "a.txt")
      ∧ (sampleU.processFile "/data" "b.jpg").2.head?
        = some (Event.gcs_call (path_join "/data" "b.jpg") "b.jpg") :=
  ⟨(routed_call_arguments sampleU "/data" "a.txt" rfl).1 (by decide),
   (routed_call_arguments sampleU "/data" "b.jpg" rfl).2.1 (by decide)
     (by decide)⟩

/-- Auxiliary to C5: over a directory holding exactly `a.txt`, `b.jpg`,
`c.pdf`, an uploader whose configuration routes `a.txt` to S3 only,
`b.jpg` to GCS only, and `c.pdf` to neither produces exactly two outcomes:
one through the S3 branch for `a.txt`, one through the GCS branch for
`b.jpg`, whatever the two clients do. -/
theorem two_outcomes_aux (u : FileUploader) (d : String)
    (hcomb : u.file_extensions = u.s3_file_extensions ++ u.gcs_file_extensions)
    (ha : file_extension_of "a.txt" ∈ u.s3_file_extensions)
    (hb1 : file_extension_of "b.jpg" ∉ u.s3_file_extensions)
    (hb2 : file_extension_of "b.jpg" ∈ u.gcs_file_extensions)
    (hc : file_extension_of "c.pdf" ∉ u.file_extensions) :
    ∃ o1 o2,
      outcomesOf ((u.upload_files
            (some (FSTree.node ["a.txt", "b.jpg", "c.pdf"] [])) d).2)
          = [o1, o2]
        ∧ isS3OutcomeFor u "a.txt" o1 ∧ isGCSOutcomeFor u "b.jpg" o2 := by
  rw [upload_files_flat, uploadLoopFiles_cons, uploadLoopFiles_cons,
    uploadLoopFiles_cons, processFile_skip u d "c.pdf" hc]
  rcases h1 : u.upload_to_s3 (path_join d "a.txt") "a.txt" with e1 | ⟨⟩ <;>
    rcases h2 : u.upload_to_gcs (path_join d "b.jpg") "b.jpg" with e2 | ⟨⟩
  · rw [processFile_s3_fail u d "a.txt" e1 hcomb ha h1,
      processFile_gcs_fail u d "b.jpg" e2 hcomb hb1 hb2 h2]
    exact ⟨(Status.failed, s3_error_msg u "a.txt" e1),
      (Status.failed, gcs_error_msg u "b.jpg" e2),
      by simp [outcomesOf, uploadLoopFiles],
      Or.inr ⟨e1, rfl⟩, Or.inr ⟨e2, rfl⟩⟩
  · rw [processFile_s3_fail u d "a.txt" e1 hcomb ha h1,
      processFile_gcs_ok u d "b.jpg" hcomb hb1 hb2 h2]
    exact ⟨(Status.failed, s3_error_msg u "a.txt" e1),
      (Status.success, gcs_success_msg u "b.jpg"),
      by simp [outcomesOf, uploadLoopFiles],
      Or.inr ⟨e1, rfl⟩, Or.inl rfl⟩
  · rw [processFile_s3_ok u d "a.txt" hcomb ha h1,
      processFile_gcs_fail u d "b.jpg" e2 hcomb hb1 hb2 h2]
    exact ⟨(Status.success, s3_success_msg u "a.txt"),
      (Status.failed, gcs_error_msg u "b.jpg" e2),
      by simp [outcomesOf, uploadLoopFiles],
      Or.inl rfl, Or.inr ⟨e2, rfl⟩⟩
  · rw [processFile_s3_ok u d "a.txt" hcomb ha h1,
      processFile_gcs_ok u d "b.jpg" hcomb hb1 hb2 h2]
    exact ⟨(Status.success, s3_success_msg u "a.txt"),
      (Status.success, gcs_success_msg u "b.jpg"),
      by simp [outcomesOf, uploadLoopFiles],
      Or.inl rfl, Or.inl rfl⟩

/-- C5: with `txt` configured for S3, `jpg` for GCS, a run over a directory
holding exactly `a.txt`, `b.jpg`, `c.pdf` produces exactly two outcomes —
one (Success or Failed) through the S3 branch for `a.txt`, one through the
GCS branch for `b.jpg`, and none for `c.pdf` — for every pair of client
behaviors, credentials, and root directory. -/
theorem three_file_directory_two_outcomes (s3c : S3Client) (gcsc : GCSClient)
    (ak sk s3b cred proj gcsb d : String) :
    ∃ o1 o2,
      outcomesOf (((FileUploader.init (fun _ _ => s3c) (fun _ => gcsc)
              ak sk s3b cred proj gcsb ["txt"] ["jpg"]).upload_files
            (some (FSTree.node ["a.txt", "b.jpg", "c.pdf"] [])) d).2)
          = [o1, o2]
        ∧ isS3OutcomeFor (FileUploader.init (fun _ _ => s3c) (fun _ => gcsc)
            ak sk s3b cred proj gcsb ["txt"] ["jpg"]) "a.txt" o1
        ∧ isGCSOutcomeFor (FileUploader.init (fun _ _ => s3c) (fun _ => gcsc)
            ak sk s3b cred proj gcsb ["txt"] ["jpg"]) "b.jpg" o2 := by
  have ha : ("txt" : String) ∈ (["txt"] : List String) := by decide
  have hb1 : ("jpg" : String) ∉ (["txt"] : List String) := by decide
  have hb2 : ("jpg" : String) ∈ (["jpg"] : List String) := by decide
  have hc : ("pdf" : String) ∉ (["txt", "jpg"] : List String) := by decide
  exact two_outcomes_aux _ d rfl ha hb1 hb2 hc
